import Mathlib

/-!
Shallow embedding of `src/client/renderingengine.cpp` (Minetest rendering
engine lifecycle layer).  Pure data and straight-line code are translated as
Lean functions; the external collaborators (settings store, Irrlicht device
creation, texture source, font engine, GUI environment) are passed in as
explicit values or function parameters.  A crash of the process (failed
`sanity_check`, dereference of a null pointer) is modelled as an
`Except.error` carrying the kind of crash.
-/

set_option autoImplicit false

namespace Minetest

/-- Kind of unrecoverable failure: an explicit `sanity_check` assertion firing,
or an (undefined-behaviour) dereference of a null pointer. Either way the
process cannot continue. -/
inductive Fatal where
  | sanityCheckFailed
  | nullPointerDeref
  deriving DecidableEq, Repr

/-- Irrlicht `video::E_DRIVER_TYPE`, the closed enum of backends, in
enumeration order (`EDT_NULL = 0` .. `EDT_OGLES2 = 7`). -/
inductive DriverType where
  | EDT_NULL
  | EDT_SOFTWARE
  | EDT_BURNINGSVIDEO
  | EDT_DIRECT3D8
  | EDT_DIRECT3D9
  | EDT_OPENGL
  | EDT_OGLES1
  | EDT_OGLES2
  deriving DecidableEq, Repr

/-- All enum values in enumeration order, i.e. the loop
`for (int i = 0; i != irr::video::EDT_COUNT; i++)`. -/
def allDriverTypes : List DriverType :=
  [DriverType.EDT_NULL, DriverType.EDT_SOFTWARE, DriverType.EDT_BURNINGSVIDEO,
   DriverType.EDT_DIRECT3D8, DriverType.EDT_DIRECT3D9, DriverType.EDT_OPENGL,
   DriverType.EDT_OGLES1, DriverType.EDT_OGLES2]

/-- `RenderingEngine::getVideoDriverName`: the static `driver_ids[]` table
indexed by the enum value. -/
def getVideoDriverName : DriverType → String
  | DriverType.EDT_NULL => "null"
  | DriverType.EDT_SOFTWARE => "software"
  | DriverType.EDT_BURNINGSVIDEO => "burningsvideo"
  | DriverType.EDT_DIRECT3D8 => "direct3d8"
  | DriverType.EDT_DIRECT3D9 => "direct3d9"
  | DriverType.EDT_OPENGL => "opengl"
  | DriverType.EDT_OGLES1 => "ogles1"
  | DriverType.EDT_OGLES2 => "ogles2"

/-- `RenderingEngine::getVideoDriverFriendlyName`: the static
`driver_names[]` table. -/
def getVideoDriverFriendlyName : DriverType → String
  | DriverType.EDT_NULL => "NULL Driver"
  | DriverType.EDT_SOFTWARE => "Software Renderer"
  | DriverType.EDT_BURNINGSVIDEO => "Burning's Video"
  | DriverType.EDT_DIRECT3D8 => "Direct3D 8"
  | DriverType.EDT_DIRECT3D9 => "Direct3D 9"
  | DriverType.EDT_OPENGL => "OpenGL"
  | DriverType.EDT_OGLES1 => "OpenGL ES1"
  | DriverType.EDT_OGLES2 => "OpenGL ES2"

/-- `RenderingEngine::getSupportedVideoDrivers`: iterate the enum in order,
keep those for which `IrrlichtDevice::isDriverSupported` holds.  Platform
support is the parameter `isSupported`. -/
def getSupportedVideoDrivers (isSupported : DriverType → Bool) : List DriverType :=
  allDriverTypes.filter isSupported

/-- `strcasecmp(a, b) == 0`: ASCII case-insensitive string equality,
character by character as `strcasecmp` walks the two strings. -/
def caseFoldEq (a b : String) : Bool :=
  a.data.map Char.toLower == b.data.map Char.toLower

/-- The driver-selection loop of the constructor (lines 72-79): scan the
supported-driver vector in order, return the first entry whose name matches
the configured string case-insensitively. -/
def resolveDriverLoop : List DriverType → String → Option DriverType
  | [], _ => none
  | d :: rest, s =>
    if caseFoldEq s (getVideoDriverName d) then some d
    else resolveDriverLoop rest s

/-- The driver type the constructor ends up with: the first match, or the
initial value `EDT_OPENGL` when the loop ran off the end. -/
def driverTypeOf (drivers : List DriverType) (s : String) : DriverType :=
  (resolveDriverLoop drivers s).getD DriverType.EDT_OPENGL

/-- Whether the constructor prints the
`Invalid video_driver specified; defaulting to opengl` diagnostic
(the `i == drivers.size()` test, line 80). -/
def invalidDriverLogged (drivers : List DriverType) (s : String) : Bool :=
  (resolveDriverLoop drivers s).isNone

/-- The relevant fields of the external settings store `g_settings`, already
fetched with the getters the constructor and the screen drawers use. -/
structure Settings where
  fullscreen : Bool
  screen_w : Nat
  screen_h : Nat
  vsync : Bool
  fullscreen_bpp : Nat
  fsaa : Nat
  mode3d : String
  video_driver : String
  high_precision_fpu : Bool
  menu_clouds : Bool
  deriving DecidableEq, Repr

/-- `SIrrlichtCreationParameters` as filled in by the constructor. -/
structure CreationParams where
  driverType : DriverType
  windowSize : Nat × Nat
  bits : Nat
  antiAlias : Nat
  fullscreen : Bool
  stencilbuffer : Bool
  stereobuffer : Bool
  vsync : Bool
  highPrecisionFPU : Bool
  zbufferBits : Nat
  deriving DecidableEq, Repr

/-- `video::IVideoDriver`: for this layer only its current screen size is
observable. -/
structure VideoDriver where
  getScreenSize : Nat × Nat
  deriving DecidableEq, Repr

/-- `IrrlichtDevice` (the active device): exposes its video driver. -/
structure Device where
  getVideoDriver : VideoDriver
  deriving DecidableEq, Repr

/-- `RenderingCore` (the active rendering strategy): for this layer only its
virtual size is observable; its `draw` receives the per-frame arguments. -/
structure RenderingCore where
  getVirtualSize : Nat × Nat
  deriving DecidableEq, Repr

/-- The `RenderingEngine` instance state: instance identity (the `this`
pointer), the owned device, the cached driver pointer, and the optional
rendering core (null before `_initialize` and after `_finalize`). -/
structure Engine where
  id : Nat
  m_device : Device
  driver : VideoDriver
  core : Option RenderingCore
  deriving DecidableEq, Repr

/-- The parameter block built by the constructor (lines 55-97) from the
settings, with `driverType` resolved by the selection loop. -/
def buildCreationParams (g : Settings) (drivers : List DriverType) : CreationParams :=
  { driverType := driverTypeOf drivers g.video_driver
    windowSize := (g.screen_w, g.screen_h)
    bits := g.fullscreen_bpp
    antiAlias := g.fsaa
    fullscreen := g.fullscreen
    stencilbuffer := false
    stereobuffer := g.mode3d == "pageflip"
    vsync := g.vsync
    highPrecisionFPU := g.high_precision_fpu
    zbufferBits := 24 }

/-- `RenderingEngine::RenderingEngine` (lines 50-110).  Global state is the
singleton pointer, modelled as the `id` of the live instance (or `none`).
`createDeviceEx` is the external Irrlicht entry point; it may fail (return a
null device).  `sanity_check(!s_singleton)` firing and the dereference
`m_device->getVideoDriver()` on a null `m_device` are both fatal.  On success
the engine state and the updated singleton pointer are returned. -/
def mkRenderingEngine (g : Settings) (isSupported : DriverType → Bool)
    (createDeviceEx : CreationParams → Option Device)
    (s_singleton : Option Nat) (newId : Nat) :
    Except Fatal (Engine × Option Nat) :=
  if s_singleton.isSome then Except.error Fatal.sanityCheckFailed
  else
    match createDeviceEx (buildCreationParams g (getSupportedVideoDrivers isSupported)) with
    | none => Except.error Fatal.nullPointerDeref
    | some dev =>
      Except.ok ({ id := newId, m_device := dev, driver := dev.getVideoDriver,
                   core := none }, some newId)

/-- Observable effect of `RenderingEngine::~RenderingEngine` (lines 112-117):
`core.reset()`, `m_device->drop()`, `s_singleton = nullptr`. -/
structure DtorResult where
  core : Option RenderingCore
  deviceDropped : Bool
  s_singleton : Option Nat
  deriving DecidableEq, Repr

/-- `RenderingEngine::~RenderingEngine`. -/
def dtorRenderingEngine (_e : Engine) (_s_singleton : Option Nat) : DtorResult :=
  { core := none, deviceDropped := true, s_singleton := none }

/-- `RenderingEngine::getWindowSize` (lines 119-124). -/
def getWindowSize (e : Engine) : Nat × Nat :=
  match e.core with
  | some c => c.getVirtualSize
  | none => e.m_device.getVideoDriver.getScreenSize

/-- The argument tuple `core->draw(...)` receives. -/
structure DrawCall where
  skycolor : Nat × Nat × Nat × Nat
  show_hud : Bool
  show_minimap : Bool
  draw_wield_tool : Bool
  draw_crosshair : Bool
  deriving DecidableEq, Repr

/-- `RenderingEngine::_draw_scene` (lines 476-480): a single statement
`core->draw(skycolor, show_hud, show_minimap, draw_wield_tool,
draw_crosshair)`.  There is no assertion; when `core` is null the call
dereferences the null strategy pointer. -/
def _draw_scene (e : Engine) (skycolor : Nat × Nat × Nat × Nat)
    (show_hud show_minimap draw_wield_tool draw_crosshair : Bool) :
    Except Fatal DrawCall :=
  match e.core with
  | none => Except.error Fatal.nullPointerDeref
  | some _ =>
    Except.ok { skycolor := skycolor, show_hud := show_hud,
                show_minimap := show_minimap, draw_wield_tool := draw_wield_tool,
                draw_crosshair := draw_crosshair }

/-- A rectangle `core::rect<s32>`; coordinates as passed to its constructor. -/
structure Rect where
  x1 : Int
  y1 : Int
  x2 : Int
  y2 : Int
  deriving DecidableEq, Repr

/-- A texture `video::ITexture`; only its size is observed here. -/
structure Texture where
  getSize : Nat × Nat
  deriving DecidableEq, Repr

/-- One `draw2DImageFilterScaled` call: destination and source rectangles. -/
structure ImageDraw where
  destRect : Rect
  srcRect : Rect
  deriving DecidableEq, Repr

/-- Drawn pixel width of the destination rectangle. -/
def ImageDraw.destWidth (d : ImageDraw) : Int :=
  d.destRect.x2 - d.destRect.x1

/-- Width of the source rectangle. -/
def ImageDraw.srcWidth (d : ImageDraw) : Int :=
  d.srcRect.x2 - d.srcRect.x1

/-- The two layers of the progress bar: the background image draw and the
filled-overlay image draw, in issue order. -/
structure ProgressBarDraw where
  bg : ImageDraw
  fg : ImageDraw
  deriving DecidableEq, Repr

/-- A `gui::IGUIStaticText` node living in the GUI environment.  Pointer
identity is modelled by `id`. -/
structure TextNode where
  id : Nat
  text : String
  rect : Rect
  deriving DecidableEq, Repr

/-- The retained-mode GUI environment: its current nodes, plus a counter
supplying fresh node identities (fresh pointers). -/
structure GUIEnv where
  nodes : List TextNode
  nextId : Nat
  deriving DecidableEq, Repr

/-- Well-formedness: every live node's identity is below the freshness
counter (true of any environment built by `addStaticText`). -/
def GUIEnv.WF (env : GUIEnv) : Prop :=
  ∀ n ∈ env.nodes, n.id < env.nextId

/-- `guienv->addStaticText(text, rect, false, false)`: appends a fresh node,
returns it together with the updated environment. -/
def addStaticText (env : GUIEnv) (text : String) (rect : Rect) : TextNode × GUIEnv :=
  let n : TextNode := { id := env.nextId, text := text, rect := rect }
  (n, { nodes := env.nodes ++ [n], nextId := env.nextId + 1 })

/-- `node->remove()`: removes the node with the given identity (pointer)
from the environment; removes nothing when no such node is present. -/
def removeById : List TextNode → Nat → List TextNode
  | [], _ => []
  | n :: rest, i => if n.id = i then rest else n :: removeById rest i

/-- The `rangelim(d, min, max)` macro from `util/numeric.h`:
`(d) < (min) ? (min) : ((d) > (max) ? (max) : (d))`. -/
def rangelim (d mn mx : Nat) : Nat :=
  if d < mn then mn else if d > mx then mx else d

/-- 2^32, for `u32` wrap-around arithmetic. -/
def U32LIM : Nat := 4294967296

/-- `u32` subtraction `a - b` (wrap-around modulo 2^32), for the
`screensize.X - imgW` computations. -/
def u32sub (a b : Nat) : Nat :=
  (a % U32LIM + (U32LIM - b % U32LIM)) % U32LIM

/-- The ordered observable actions `_draw_load_screen` performs against the
GUI environment, the cloud objects and the video driver. -/
inductive FrameEv where
  | addText (id : Nat)
  | cloudsStepEv (amount : Rat)
  | cloudsRenderEv
  | beginSceneEv (color : Nat × Nat × Nat × Nat)
  | cloudsDrawAllEv
  | drawImageEv (d : ImageDraw)
  | guiDrawAllEv
  | endSceneEv
  | removeTextEv (id : Nat)
  deriving DecidableEq, Repr

/-- Recognizer for `FrameEv.addText`. -/
def FrameEv.isAddText : FrameEv → Bool
  | FrameEv.addText _ => true
  | _ => false

/-- Recognizer for `FrameEv.removeTextEv`. -/
def FrameEv.isRemoveText : FrameEv → Bool
  | FrameEv.removeTextEv _ => true
  | _ => false

/-- The two `draw2DImageFilterScaled` calls of the progress bar
(lines 375-404, non-Android sizing): `img_size` is the size of
`progress_bar_bg.png`, `imgW`/`imgH` its clamped drawn size, and the filled
overlay is cut down to `(percent * imgW) / 100` columns of the destination
and `(percent * img_size.Width) / 100` columns of the source. -/
def progressBarFor (screensize : Nat × Nat) (img_size : Nat × Nat)
    (percent : Int) : ProgressBarDraw :=
  let imgW := rangelim img_size.1 200 600
  let imgH := rangelim img_size.2 24 72
  let img_pos : Nat × Nat :=
    (u32sub screensize.1 imgW / 2, u32sub screensize.2 imgH / 2)
  { bg := { destRect :=
              { x1 := (img_pos.1 : Int), y1 := (img_pos.2 : Int)
                x2 := (img_pos.1 : Int) + (imgW : Int)
                y2 := (img_pos.2 : Int) + (imgH : Int) }
            srcRect :=
              { x1 := 0, y1 := 0
                x2 := (img_size.1 : Int), y2 := (img_size.2 : Int) } }
    fg := { destRect :=
              { x1 := (img_pos.1 : Int), y1 := (img_pos.2 : Int)
                x2 := (img_pos.1 : Int) + ((percent.toNat * imgW) / 100 : Nat)
                y2 := (img_pos.2 : Int) + (imgH : Int) }
            srcRect :=
              { x1 := 0, y1 := 0
                x2 := ((percent.toNat * img_size.1) / 100 : Nat)
                y2 := (img_size.2 : Int) } } }

/-- Everything `_draw_load_screen` observably does in one call. -/
structure LoadScreenResult where
  addedNode : TextNode
  menuCloudsDrawn : Bool
  cloudsStep : Option Rat
  clearColor : Nat × Nat × Nat × Nat
  progressBar : Option ProgressBarDraw
  guiDrawAll : Bool
  sceneEnded : Bool
  events : List FrameEv
  envAfter : GUIEnv
  deriving DecidableEq, Repr

/-- `RenderingEngine::_draw_load_screen` (lines 344-411), non-Android build
(the `__ANDROID__` branch of the bar sizing is compiled out).  External
collaborators: the active engine `e` (for `getWindowSize`), the settings
`g`, the font engine (`fontW`, `lineH`), the texture source `tsrc`.  The
cloud objects and driver calls are recorded as events; `dtime` is the frame
time (the source's `float` modelled as a rational). -/
def _draw_load_screen (e : Engine) (g : Settings) (fontW : String → Nat)
    (lineH : Nat) (text : String) (guienv : GUIEnv)
    (tsrc : String → Option Texture) (dtime : Rat) (percent : Int)
    (clouds : Bool) : LoadScreenResult :=
  let screensize := getWindowSize e
  let textsize : Nat × Nat := (fontW text, lineH)
  let center : Nat × Nat := (screensize.1 / 2, screensize.2 / 2)
  let textrect : Rect :=
    { x1 := (center.1 : Int) - (textsize.1 / 2 : Nat)
      y1 := (center.2 : Int) - (textsize.2 / 2 : Nat)
      x2 := (center.1 : Int) + (textsize.1 / 2 : Nat)
      y2 := (center.2 : Int) + (textsize.2 / 2 : Nat) }
  let added := addStaticText guienv text textrect
  let guitext := added.1
  let env1 := added.2
  let cloud_menu_background := clouds && g.menu_clouds
  let cloudEvs : List FrameEv :=
    if cloud_menu_background then
      [FrameEv.cloudsStepEv (dtime * 3), FrameEv.cloudsRenderEv,
       FrameEv.beginSceneEv (255, 140, 186, 250), FrameEv.cloudsDrawAllEv]
    else
      [FrameEv.beginSceneEv (255, 0, 0, 0)]
  let progressBar : Option ProgressBarDraw :=
    if 0 ≤ percent ∧ percent ≤ 100 then
      match tsrc ("progress_bar.png"), tsrc ("progress_bar_bg.png") with
      | some _progress_img, some progress_img_bg =>
        some (progressBarFor screensize progress_img_bg.getSize percent)
      | _, _ => none
    else none
  let barEvs : List FrameEv :=
    match progressBar with
    | some pb => [FrameEv.drawImageEv pb.bg, FrameEv.drawImageEv pb.fg]
    | none => []
  { addedNode := guitext
    menuCloudsDrawn := cloud_menu_background
    cloudsStep := if cloud_menu_background then some (dtime * 3) else none
    clearColor := if cloud_menu_background then (255, 140, 186, 250) else (255, 0, 0, 0)
    progressBar := progressBar
    guiDrawAll := true
    sceneEnded := true
    events := FrameEv.addText guitext.id ::
      (cloudEvs ++ barEvs ++
        [FrameEv.guiDrawAllEv, FrameEv.endSceneEv, FrameEv.removeTextEv guitext.id])
    envAfter := { nodes := removeById env1.nodes guitext.id, nextId := env1.nextId } }

/-- Everything `_draw_menu_scene` observably does in one call. -/
structure MenuSceneResult where
  menuCloudsDrawn : Bool
  cloudsStep : Option Rat
  clearColor : Nat × Nat × Nat × Nat
  guiDrawAll : Bool
  sceneEnded : Bool
  envAfter : GUIEnv
  deriving DecidableEq, Repr

/-- `RenderingEngine::_draw_menu_scene` (lines 416-431). -/
def _draw_menu_scene (g : Settings) (guienv : GUIEnv) (dtime : Rat)
    (clouds : Bool) : MenuSceneResult :=
  let cloud_menu_background := clouds && g.menu_clouds
  { menuCloudsDrawn := cloud_menu_background
    cloudsStep := if cloud_menu_background then some (dtime * 3) else none
    clearColor := if cloud_menu_background then (255, 140, 186, 250) else (255, 0, 0, 0)
    guiDrawAll := true
    sceneEnded := true
    envAfter := guienv }

/-- `video::IVideoModeList` of a (null) probe device: the enumerated
`(Width, Height, Depth)` modes and the desktop mode. -/
structure VideoModeList where
  modes : List (Nat × Nat × Nat)
  desktop : Nat × Nat × Nat
  deriving DecidableEq, Repr

/-- A transient `EDT_NULL` probe device.  `getVideoModeList()` may itself
return a null pointer (checked in `print_video_modes`, unchecked in
`getSupportedVideoModes`). -/
structure NullDevice where
  getVideoModeList : Option VideoModeList
  deriving DecidableEq, Repr

/-- Observable outcome of `print_video_modes`. -/
structure PrintVideoModesResult where
  result : Bool
  deviceDropped : Bool
  printed : List (Nat × Nat × Nat)
  printedDesktop : Option (Nat × Nat × Nat)
  deriving DecidableEq, Repr

/-- `RenderingEngine::print_video_modes` (lines 131-183).  The outcome of
`createDeviceEx` for the null-driver parameter block is the argument; when
it fails the function returns `false` (best-effort); otherwise the mode
list is printed when present and the probe device is dropped before
returning `videomode_list != NULL`. -/
def print_video_modes (nulldevice : Option NullDevice) : PrintVideoModesResult :=
  match nulldevice with
  | none => { result := false, deviceDropped := false, printed := [], printedDesktop := none }
  | some d =>
    match d.getVideoModeList with
    | none => { result := false, deviceDropped := true, printed := [], printedDesktop := none }
    | some ml =>
      { result := true, deviceDropped := true, printed := ml.modes,
        printedDesktop := some ml.desktop }

/-- `RenderingEngine::getSupportedVideoModes` (lines 433-450).  The outcome
of `createDevice(video::EDT_NULL)` is the argument; `sanity_check(nulldevice)`
fires fatally when it is null.  The mode list pointer is then dereferenced
without a null check.  On success returns the mode list and the fact that
the probe device was dropped. -/
def getSupportedVideoModes (nulldevice : Option NullDevice) :
    Except Fatal (List (Nat × Nat × Nat) × Bool) :=
  match nulldevice with
  | none => Except.error Fatal.sanityCheckFailed
  | some d =>
    match d.getVideoModeList with
    | none => Except.error Fatal.nullPointerDeref
    | some ml => Except.ok (ml.modes, true)

/-! Concrete sample values used to exercise the theorems. -/

/-- A concrete video driver reporting an 800x600 screen. -/
def sampleDriver : VideoDriver := { getScreenSize := (800, 600) }

/-- A concrete device. -/
def sampleDevice : Device := { getVideoDriver := sampleDriver }

/-- A concrete rendering core with a 400x600 virtual size (e.g. a
side-by-side stereo strategy on an 800x600 framebuffer). -/
def sampleCore : RenderingCore := { getVirtualSize := (400, 600) }

/-- A concrete engine holding no rendering core. -/
def sampleEngine : Engine :=
  { id := 0, m_device := sampleDevice, driver := sampleDriver, core := none }

/-- A concrete engine holding a rendering core. -/
def sampleEngineWithCore : Engine :=
  { id := 0, m_device := sampleDevice, driver := sampleDriver, core := some sampleCore }

/-- A concrete settings store. -/
def sampleSettings : Settings :=
  { fullscreen := false, screen_w := 800, screen_h := 600, vsync := false,
    fullscreen_bpp := 24, fsaa := 0, mode3d := "mono", video_driver := "opengl",
    high_precision_fpu := false, menu_clouds := true }

/-- The sample settings with a driver name that matches no backend. -/
def sampleSettingsBadDriver : Settings :=
  { sampleSettings with video_driver := "not-a-driver" }

/-- A concrete 300x40 texture. -/
def sampleTexture : Texture := { getSize := (300, 40) }

/-- A texture source that has every texture. -/
def sampleTsrc : String → Option Texture := fun _ => some sampleTexture

/-- The empty GUI environment. -/
def emptyEnv : GUIEnv := { nodes := [], nextId := 0 }

/-- A concrete video mode list. -/
def sampleModeList : VideoModeList :=
  { modes := [(640, 480, 16), (800, 600, 24)], desktop := (1920, 1080, 24) }

/-! ## Theorems -/

/-- C1: if device creation returns no device, construction of the
`RenderingEngine` fails fatally (the process cannot continue), and a
construction that completes holds exactly the device creation returned,
never a null device handle. -/
theorem construction_requires_device (g : Settings) (isSupported : DriverType → Bool)
    (createDeviceEx : CreationParams → Option Device) (s_singleton : Option Nat)
    (newId : Nat) :
    (createDeviceEx (buildCreationParams g (getSupportedVideoDrivers isSupported)) = none →
      ∃ f, mkRenderingEngine g isSupported createDeviceEx s_singleton newId =
        Except.error f) ∧
    (∀ e s2, mkRenderingEngine g isSupported createDeviceEx s_singleton newId =
        Except.ok (e, s2) →
      createDeviceEx (buildCreationParams g (getSupportedVideoDrivers isSupported)) =
        some e.m_device) := by
  constructor
  · intro hnone
    by_cases hs : s_singleton.isSome
    · exact ⟨Fatal.sanityCheckFailed, by simp [mkRenderingEngine, hs]⟩
    · exact ⟨Fatal.nullPointerDeref, by simp [mkRenderingEngine, hs, hnone]⟩
  · intro e s2 hok
    unfold mkRenderingEngine at hok
    by_cases hs : s_singleton.isSome
    · simp [hs] at hok
    · simp only [hs, if_false, Bool.false_eq_true, if_neg] at hok
      cases hc : createDeviceEx
          (buildCreationParams g (getSupportedVideoDrivers isSupported)) with
      | none => rw [hc] at hok; cases hok
      | some dev =>
        rw [hc] at hok
        simp only [Except.ok.injEq, Prod.mk.injEq] at hok
        rw [← hok.1]

/-- Witness for C1 at a concrete input: with a device creation that fails,
construction errors out. -/
theorem construction_requires_device_witness :
    ∃ f, mkRenderingEngine sampleSettings (fun _ => true) (fun _ => none) none 0 =
      Except.error f :=
  (construction_requires_device sampleSettings (fun _ => true) (fun _ => none)
    none 0).1 rfl

/-- C2: constructing a `RenderingEngine` while the singleton pointer is
non-null fires the fatal `sanity_check`; successful construction stores the
new instance in the singleton pointer, and the destructor clears it (and
releases the core and the device). -/
theorem singleton_lifecycle (g : Settings) (isSupported : DriverType → Bool)
    (createDeviceEx : CreationParams → Option Device) (newId : Nat) :
    (∀ old : Nat, mkRenderingEngine g isSupported createDeviceEx (some old) newId =
        Except.error Fatal.sanityCheckFailed) ∧
    (∀ e s2, mkRenderingEngine g isSupported createDeviceEx none newId =
        Except.ok (e, s2) → s2 = some e.id ∧ e.id = newId) ∧
    (∀ e s, (dtorRenderingEngine e s).s_singleton = none ∧
        (dtorRenderingEngine e s).core = none ∧
        (dtorRenderingEngine e s).deviceDropped = true) := by
  refine ⟨fun old => by simp [mkRenderingEngine], ?_, fun e s => ⟨rfl, rfl, rfl⟩⟩
  intro e s2 hok
  unfold mkRenderingEngine at hok
  simp only [Option.isSome_none, Bool.false_eq_true, if_neg, if_false] at hok
  cases hc : createDeviceEx
      (buildCreationParams g (getSupportedVideoDrivers isSupported)) with
  | none => rw [hc] at hok; cases hok
  | some dev =>
    rw [hc] at hok
    simp only [Except.ok.injEq, Prod.mk.injEq] at hok
    refine ⟨?_, ?_⟩
    · rw [← hok.1, hok.2]
    · rw [← hok.1]

/-- Witness for C2 at concrete inputs: a second construction while an
instance (id 7) is alive fails the assertion. -/
theorem singleton_lifecycle_witness :
    mkRenderingEngine sampleSettings (fun _ => true) (fun _ => some sampleDevice)
      (some 7) 1 = Except.error Fatal.sanityCheckFailed :=
  (singleton_lifecycle sampleSettings (fun _ => true) (fun _ => some sampleDevice)
    1).1 7

/-- C3: `getWindowSize` returns the core's virtual size when a core is held,
and the physical device's current screen size otherwise. -/
theorem getWindowSize_virtual_or_physical (e : Engine) :
    (∀ c, e.core = some c → getWindowSize e = c.getVirtualSize) ∧
    (e.core = none → getWindowSize e = e.m_device.getVideoDriver.getScreenSize) := by
  constructor
  · intro c hc; simp [getWindowSize, hc]
  · intro hc; simp [getWindowSize, hc]

/-- Witness for C3 at concrete engines, with and without a core. -/
theorem getWindowSize_virtual_or_physical_witness :
    getWindowSize sampleEngineWithCore = (400, 600) ∧
    getWindowSize sampleEngine = (800, 600) :=
  ⟨(getWindowSize_virtual_or_physical sampleEngineWithCore).1 sampleCore rfl,
   (getWindowSize_virtual_or_physical sampleEngine).2 rfl⟩

/-- Helper: a successful driver-selection loop returns the first matching
entry of the list: some index holds the result, it matches, and every
earlier index does not. -/
theorem resolveDriverLoop_some_spec (ds : List DriverType) (s : String)
    (d : DriverType) (h : resolveDriverLoop ds s = some d) :
    ∃ i, ∃ hi : i < ds.length, ds.get ⟨i, hi⟩ = d ∧
      caseFoldEq s (getVideoDriverName d) = true ∧
      ∀ j, ∀ hj : j < ds.length, j < i →
        caseFoldEq s (getVideoDriverName (ds.get ⟨j, hj⟩)) = false := by
  induction ds with
  | nil => simp [resolveDriverLoop] at h
  | cons a t ih =>
    by_cases ha : caseFoldEq s (getVideoDriverName a) = true
    · have hd : a = d := by
        simp [resolveDriverLoop, ha] at h
        exact h
      refine ⟨0, by simp, by simpa using hd, by rw [← hd]; exact ha, ?_⟩
      intro j hj hj0
      exact absurd hj0 (Nat.not_lt_zero j)
    · have hr : resolveDriverLoop t s = some d := by
        simpa [resolveDriverLoop, ha] using h
      obtain ⟨i, hi, hget, hmatch, hbefore⟩ := ih hr
      refine ⟨i + 1, by simpa using Nat.succ_lt_succ hi, by simpa using hget,
        hmatch, ?_⟩
      intro j hj hji
      cases j with
      | zero => simpa using Bool.not_eq_true _ ▸ (by simpa using ha)
      | succ k =>
        have hk : k < t.length := Nat.lt_of_succ_lt_succ hj
        have := hbefore k hk (Nat.lt_of_succ_lt_succ hji)
        simpa using this

/-- Helper: the driver-selection loop finds nothing exactly when no entry
matches the configured name case-insensitively. -/
theorem resolveDriverLoop_none_iff (ds : List DriverType) (s : String) :
    resolveDriverLoop ds s = none ↔
      ∀ d ∈ ds, caseFoldEq s (getVideoDriverName d) = false := by
  induction ds with
  | nil => simp [resolveDriverLoop]
  | cons a t ih =>
    by_cases ha : caseFoldEq s (getVideoDriverName a) = true
    · simp [resolveDriverLoop, ha]
    · simp only [resolveDriverLoop, ha, if_false, Bool.false_eq_true, if_neg, ih,
        List.mem_cons]
      constructor
      · intro hall d hd
        cases hd with
        | inl hd => rw [hd]; exact Bool.not_eq_true _ ▸ (by simpa using ha)
        | inr hd => exact hall d hd
      · intro hall d hd
        exact hall d (Or.inr hd)

/-- C4: the configured driver-name string is compared case-insensitively
against the supported-driver list in enumeration order and the first match
is selected; when no driver matches, the invalid-driver diagnostic is
emitted, the OpenGL driver is substituted, and construction still proceeds
(succeeding whenever device creation succeeds). -/
theorem driver_resolution_first_match_or_default (isSupported : DriverType → Bool)
    (name : String) :
    (∀ d, resolveDriverLoop (getSupportedVideoDrivers isSupported) name = some d →
      driverTypeOf (getSupportedVideoDrivers isSupported) name = d ∧
      ∃ i, ∃ hi : i < (getSupportedVideoDrivers isSupported).length,
        (getSupportedVideoDrivers isSupported).get ⟨i, hi⟩ = d ∧
        caseFoldEq name (getVideoDriverName d) = true ∧
        ∀ j, ∀ hj : j < (getSupportedVideoDrivers isSupported).length, j < i →
          caseFoldEq name
            (getVideoDriverName ((getSupportedVideoDrivers isSupported).get ⟨j, hj⟩)) =
            false) ∧
    ((∀ d ∈ getSupportedVideoDrivers isSupported,
        caseFoldEq name (getVideoDriverName d) = false) →
      driverTypeOf (getSupportedVideoDrivers isSupported) name =
        DriverType.EDT_OPENGL ∧
      invalidDriverLogged (getSupportedVideoDrivers isSupported) name = true) ∧
    (∀ g : Settings, ∀ createDeviceEx : CreationParams → Option Device,
      ∀ dev newId, g.video_driver = name →
      createDeviceEx (buildCreationParams g (getSupportedVideoDrivers isSupported)) =
        some dev →
      ∃ e s2, mkRenderingEngine g isSupported createDeviceEx none newId =
        Except.ok (e, s2)) := by
  refine ⟨?_, ?_, ?_⟩
  · intro d hd
    refine ⟨by simp [driverTypeOf, hd], resolveDriverLoop_some_spec _ _ _ hd⟩
  · intro hall
    have hn : resolveDriverLoop (getSupportedVideoDrivers isSupported) name = none :=
      (resolveDriverLoop_none_iff _ _).mpr hall
    exact ⟨by simp [driverTypeOf, hn], by simp [invalidDriverLogged, hn]⟩
  · intro g createDeviceEx dev newId _hname hdev
    refine ⟨{ id := newId, m_device := dev, driver := dev.getVideoDriver,
              core := none }, some newId, ?_⟩
    unfold mkRenderingEngine
    simp only [Option.isSome_none, Bool.false_eq_true, if_neg, if_false, hdev]

/-- Witness for C4 at a concrete input: on an all-backends build the name
`not-a-driver` matches nothing, so the diagnostic fires, OpenGL is chosen,
and construction with a succeeding device creation completes. -/
theorem driver_resolution_first_match_or_default_witness :
    (driverTypeOf (getSupportedVideoDrivers (fun _ => true)) "not-a-driver" =
       DriverType.EDT_OPENGL ∧
     invalidDriverLogged (getSupportedVideoDrivers (fun _ => true)) "not-a-driver" =
       true) ∧
    (∃ e s2, mkRenderingEngine sampleSettingsBadDriver (fun _ => true)
       (fun _ => some sampleDevice) none 0 = Except.ok (e, s2)) :=
  ⟨(driver_resolution_first_match_or_default (fun _ => true) "not-a-driver").2.1
     (by decide),
   (driver_resolution_first_match_or_default (fun _ => true) "not-a-driver").2.2
     sampleSettingsBadDriver (fun _ => some sampleDevice) sampleDevice 0 rfl rfl⟩

/-- C5 counterexample: calling `_draw_scene` with no active core is not
caught by an assertion — on a concrete engine without a core the call
dereferences the null strategy pointer instead of failing the
`sanity_check` the claim describes. -/
theorem draw_scene_no_assertion :
    _draw_scene sampleEngine (0, 0, 0, 0) true true true true ≠
      Except.error Fatal.sanityCheckFailed ∧
    _draw_scene sampleEngine (0, 0, 0, 0) true true true true =
      Except.error Fatal.nullPointerDeref := by
  refine ⟨?_, rfl⟩
  intro h
  simp [_draw_scene, sampleEngine] at h

/-- C5 (amended): with an active core, `_draw_scene` forwards its five
arguments verbatim to the core's draw entry point; without one it crashes
by dereferencing the null strategy pointer (no assertion guards it). -/
theorem draw_scene_forwards_or_crashes (e : Engine)
    (skycolor : Nat × Nat × Nat × Nat)
    (show_hud show_minimap draw_wield_tool draw_crosshair : Bool) :
    (∀ c, e.core = some c →
      _draw_scene e skycolor show_hud show_minimap draw_wield_tool draw_crosshair =
        Except.ok { skycolor := skycolor, show_hud := show_hud,
                    show_minimap := show_minimap,
                    draw_wield_tool := draw_wield_tool,
                    draw_crosshair := draw_crosshair }) ∧
    (e.core = none →
      _draw_scene e skycolor show_hud show_minimap draw_wield_tool draw_crosshair =
        Except.error Fatal.nullPointerDeref) := by
  constructor
  · intro c hc; simp [_draw_scene, hc]
  · intro hc; simp [_draw_scene, hc]

/-- Witness for the amended C5 at a concrete input: with a core held, the
arguments arrive verbatim. -/
theorem draw_scene_forwards_or_crashes_witness :
    _draw_scene sampleEngineWithCore (10, 20, 30, 40) true false true false =
      Except.ok { skycolor := (10, 20, 30, 40), show_hud := true,
                  show_minimap := false, draw_wield_tool := true,
                  draw_crosshair := false } :=
  (draw_scene_forwards_or_crashes sampleEngineWithCore (10, 20, 30, 40)
    true false true false).1 sampleCore rfl

/-- C6: in `_draw_load_screen` with `percent = 50` and both progress
textures present, the filled overlay's drawn width is exactly half the
background bar's drawn width (integer truncation), and both the destination
width and the source-rect width follow the same `(percent * width) / 100`
truncation rule. -/
theorem load_screen_half_bar_at_50 (e : Engine) (g : Settings)
    (fontW : String → Nat) (lineH : Nat) (text : String) (guienv : GUIEnv)
    (tsrc : String → Option Texture) (dtime : Rat) (clouds : Bool)
    (timg tbg : Texture)
    (h1 : tsrc ("progress_bar.png") = some timg)
    (h2 : tsrc ("progress_bar_bg.png") = some tbg) :
    ∃ d, (_draw_load_screen e g fontW lineH text guienv tsrc dtime 50
            clouds).progressBar = some d ∧
      d.bg.destWidth = (rangelim tbg.getSize.1 200 600 : Nat) ∧
      d.fg.destWidth = ((50 * rangelim tbg.getSize.1 200 600) / 100 : Nat) ∧
      d.fg.destWidth = (rangelim tbg.getSize.1 200 600 / 2 : Nat) ∧
      d.bg.srcWidth = (tbg.getSize.1 : Nat) ∧
      d.fg.srcWidth = ((50 * tbg.getSize.1) / 100 : Nat) ∧
      d.fg.srcWidth = (tbg.getSize.1 / 2 : Nat) := by
  have hpb : (_draw_load_screen e g fontW lineH text guienv tsrc dtime 50
      clouds).progressBar = some (progressBarFor (getWindowSize e) tbg.getSize 50) := by
    simp only [_draw_load_screen, h1, h2]
    norm_num
  refine ⟨progressBarFor (getWindowSize e) tbg.getSize 50, hpb, ?_, ?_, ?_, ?_, ?_, ?_⟩ <;>
    simp only [progressBarFor, ImageDraw.destWidth, ImageDraw.srcWidth,
      show (50 : Int).toNat = 50 from rfl] <;>
    omega

/-- Witness for C6 at a concrete input: with a 300-wide background texture
the background bar is drawn 300 wide and the filled overlay 150 wide. -/
theorem load_screen_half_bar_at_50_witness :
    ∃ d, (_draw_load_screen sampleEngine sampleSettings (fun _ => 100) 20
            "loading" emptyEnv sampleTsrc 1 50 true).progressBar = some d ∧
      d.bg.destWidth = (rangelim sampleTexture.getSize.1 200 600 : Nat) ∧
      d.fg.destWidth = ((50 * rangelim sampleTexture.getSize.1 200 600) / 100 : Nat) ∧
      d.fg.destWidth = (rangelim sampleTexture.getSize.1 200 600 / 2 : Nat) ∧
      d.bg.srcWidth = (sampleTexture.getSize.1 : Nat) ∧
      d.fg.srcWidth = ((50 * sampleTexture.getSize.1) / 100 : Nat) ∧
      d.fg.srcWidth = (sampleTexture.getSize.1 / 2 : Nat) :=
  load_screen_half_bar_at_50 sampleEngine sampleSettings (fun _ => 100) 20
    "loading" emptyEnv sampleTsrc 1 true sampleTexture sampleTexture rfl rfl

/-- C7: `_draw_load_screen` draws the two-layer progress bar exactly when
`percent` lies in `[0, 100]` and both progress textures are available; in
every case the text node is added, the GUI layer is drawn, the scene is
submitted, and the cloud backdrop is governed only by its own gate. -/
theorem load_screen_progress_bar_iff (e : Engine) (g : Settings)
    (fontW : String → Nat) (lineH : Nat) (text : String) (guienv : GUIEnv)
    (tsrc : String → Option Texture) (dtime : Rat) (percent : Int)
    (clouds : Bool) :
    ((_draw_load_screen e g fontW lineH text guienv tsrc dtime percent
        clouds).progressBar.isSome ↔
      (0 ≤ percent ∧ percent ≤ 100 ∧ (tsrc ("progress_bar.png")).isSome ∧
        (tsrc ("progress_bar_bg.png")).isSome)) ∧
    (_draw_load_screen e g fontW lineH text guienv tsrc dtime percent
        clouds).addedNode.text = text ∧
    (_draw_load_screen e g fontW lineH text guienv tsrc dtime percent
        clouds).guiDrawAll = true ∧
    (_draw_load_screen e g fontW lineH text guienv tsrc dtime percent
        clouds).sceneEnded = true ∧
    (_draw_load_screen e g fontW lineH text guienv tsrc dtime percent
        clouds).menuCloudsDrawn = (clouds && g.menu_clouds) := by
  refine ⟨?_, rfl, rfl, rfl, rfl⟩
  simp only [_draw_load_screen]
  by_cases hp : 0 ≤ percent ∧ percent ≤ 100
  · cases hA : tsrc ("progress_bar.png") <;>
      cases hB : tsrc ("progress_bar_bg.png") <;>
      simp [hp, hA, hB]
  · simp only [hp, if_false, if_neg, Option.isSome_none, Bool.false_eq_true,
      false_iff]
    intro hcon
    exact hp ⟨hcon.1, hcon.2.1⟩

/-- Witness for C7 at a concrete input: with both textures available and
`percent = 50` the bar is drawn. -/
theorem load_screen_progress_bar_iff_witness :
    (_draw_load_screen sampleEngine sampleSettings (fun _ => 100) 20 "loading"
        emptyEnv sampleTsrc 1 50 true).progressBar.isSome = true :=
  (load_screen_progress_bar_iff sampleEngine sampleSettings (fun _ => 100) 20
    "loading" emptyEnv sampleTsrc 1 50 true).1.mpr
    ⟨by norm_num, by norm_num, rfl, rfl⟩

/-- Helper: removing a freshly-appended node, whose identity occurs nowhere
in the old list, restores the old list. -/
theorem removeById_append_fresh (ns : List TextNode) (n : TextNode)
    (h : ∀ m ∈ ns, m.id ≠ n.id) : removeById (ns ++ [n]) n.id = ns := by
  induction ns with
  | nil => simp [removeById]
  | cons a t ih =>
    have ha : ¬a.id = n.id := h a (List.mem_cons_self a t)
    simp only [List.cons_append, removeById, ha, if_neg, if_false]
    exact congrArg (fun l => a :: l)
      (ih (fun m hm => h m (List.mem_cons_of_mem a hm)))

/-- Helper: a `_draw_load_screen` call leaves the GUI environment's node
list unchanged (the transient text node is gone again) and bumps only the
freshness counter. -/
theorem load_screen_env_unchanged (e : Engine) (g : Settings)
    (fontW : String → Nat) (lineH : Nat) (text : String) (guienv : GUIEnv)
    (tsrc : String → Option Texture) (dtime : Rat) (percent : Int)
    (clouds : Bool) (hWF : guienv.WF) :
    (_draw_load_screen e g fontW lineH text guienv tsrc dtime percent
        clouds).envAfter =
      { nodes := guienv.nodes, nextId := guienv.nextId + 1 } := by
  simp only [_draw_load_screen, addStaticText]
  congr 1
  exact removeById_append_fresh guienv.nodes _
    (fun m hm => Nat.ne_of_lt (hWF m hm))

/-- C8: each `_draw_load_screen` call adds exactly one transient text node
(first action) and removes exactly that node as the last action, after the
scene was submitted, so the GUI node list is unchanged by a call and two
successive calls accumulate nothing. -/
theorem load_screen_text_transient (e : Engine) (g : Settings)
    (fontW : String → Nat) (lineH : Nat) (text : String) (guienv : GUIEnv)
    (tsrc : String → Option Texture) (dtime : Rat) (percent : Int)
    (clouds : Bool) (hWF : guienv.WF) :
    ((_draw_load_screen e g fontW lineH text guienv tsrc dtime percent
        clouds).envAfter.nodes = guienv.nodes) ∧
    ((_draw_load_screen e g fontW lineH text guienv tsrc dtime percent
        clouds).events.head? = some (FrameEv.addText
        (_draw_load_screen e g fontW lineH text guienv tsrc dtime percent
          clouds).addedNode.id)) ∧
    ((_draw_load_screen e g fontW lineH text guienv tsrc dtime percent
        clouds).events.getLast? = some (FrameEv.removeTextEv
        (_draw_load_screen e g fontW lineH text guienv tsrc dtime percent
          clouds).addedNode.id)) ∧
    ((_draw_load_screen e g fontW lineH text guienv tsrc dtime percent
        clouds).events.countP FrameEv.isAddText = 1) ∧
    ((_draw_load_screen e g fontW lineH text guienv tsrc dtime percent
        clouds).events.countP FrameEv.isRemoveText = 1) ∧
    (FrameEv.endSceneEv ∈ (_draw_load_screen e g fontW lineH text guienv tsrc
        dtime percent clouds).events) ∧
    ((_draw_load_screen e g fontW lineH text
        (_draw_load_screen e g fontW lineH text guienv tsrc dtime percent
          clouds).envAfter tsrc dtime percent clouds).envAfter.nodes =
      guienv.nodes) := by
  have h1 := load_screen_env_unchanged e g fontW lineH text guienv tsrc dtime
    percent clouds hWF
  have hWF1 : (_draw_load_screen e g fontW lineH text guienv tsrc dtime percent
      clouds).envAfter.WF := by
    rw [h1]
    intro m hm
    exact Nat.lt_succ_of_lt (hWF m hm)
  have h2 := load_screen_env_unchanged e g fontW lineH text
    (_draw_load_screen e g fontW lineH text guienv tsrc dtime percent
      clouds).envAfter tsrc dtime percent clouds hWF1
  refine ⟨?_, ?_, ?_, ?_, ?_, ?_, ?_⟩
  · rw [h1]
  · rfl
  · simp only [_draw_load_screen, addStaticText]
    split <;> split <;> rfl
  · simp only [_draw_load_screen, addStaticText]
    split <;> split <;> rfl
  · simp only [_draw_load_screen, addStaticText]
    split <;> split <;> rfl
  · simp only [_draw_load_screen, addStaticText]
    split <;> split <;> simp
  · rw [h2, h1]

/-- Witness for C8 at a concrete input: starting from the empty GUI
environment, a call leaves the node list empty again. -/
theorem load_screen_text_transient_witness :
    (_draw_load_screen sampleEngine sampleSettings (fun _ => 100) 20 "loading"
        emptyEnv sampleTsrc 1 50 true).envAfter.nodes = emptyEnv.nodes ∧
    (_draw_load_screen sampleEngine sampleSettings (fun _ => 100) 20 "loading"
        (_draw_load_screen sampleEngine sampleSettings (fun _ => 100) 20
          "loading" emptyEnv sampleTsrc 1 50 true).envAfter sampleTsrc 1 50
        true).envAfter.nodes = emptyEnv.nodes :=
  have h := load_screen_text_transient sampleEngine sampleSettings
    (fun _ => 100) 20 "loading" emptyEnv sampleTsrc 1 50 true
    (fun n hn => absurd hn (List.not_mem_nil n))
  ⟨h.1, h.2.2.2.2.2.2⟩

/-- C9 counterexample: `getSupportedVideoModes` is not best-effort about
probe-device creation — when the transient null device cannot be created,
the `sanity_check` escalates to a fatal error instead of returning a
boolean/optional result. -/
theorem probe_failure_fatal_counterexample :
    getSupportedVideoModes none = Except.error Fatal.sanityCheckFailed := rfl

/-- C9 (amended): both mode queries use a transient null probe device that
is dropped within the call; `print_video_modes` is best-effort on
probe-creation failure (returns `false`), but `getSupportedVideoModes`
treats probe-creation failure as a fatal assertion. -/
theorem probe_device_queries (d : NullDevice) (ml : VideoModeList) :
    (print_video_modes none =
      { result := false, deviceDropped := false, printed := [],
        printedDesktop := none }) ∧
    ((print_video_modes (some d)).deviceDropped = true) ∧
    (getSupportedVideoModes none = Except.error Fatal.sanityCheckFailed) ∧
    (d.getVideoModeList = some ml →
      getSupportedVideoModes (some d) = Except.ok (ml.modes, true)) := by
  refine ⟨rfl, ?_, rfl, ?_⟩
  · cases hl : d.getVideoModeList <;> simp [print_video_modes, hl]
  · intro hml
    simp [getSupportedVideoModes, hml]

/-- Witness for the amended C9 at a concrete input: a probe device exposing
a concrete mode list yields exactly those modes and is dropped. -/
theorem probe_device_queries_witness :
    getSupportedVideoModes (some { getVideoModeList := some sampleModeList }) =
      Except.ok (sampleModeList.modes, true) :=
  (probe_device_queries { getVideoModeList := some sampleModeList }
    sampleModeList).2.2.2 rfl

/-- C10: for both `_draw_load_screen` and `_draw_menu_scene` the cloud
backdrop is drawn exactly when the call's `clouds` argument and the
`menu_clouds` setting are both true; then the clouds are stepped by
`dtime * 3` and the frame is cleared to (255, 140, 186, 250), otherwise no
cloud step happens and the clear color is opaque black — with identical
gating in both entry points. -/
theorem menu_clouds_gating (e : Engine) (g : Settings) (fontW : String → Nat)
    (lineH : Nat) (text : String) (guienv : GUIEnv)
    (tsrc : String → Option Texture) (dtime : Rat) (percent : Int)
    (clouds : Bool) (r : LoadScreenResult) (m : MenuSceneResult)
    (hr : r = _draw_load_screen e g fontW lineH text guienv tsrc dtime percent
      clouds)
    (hm : m = _draw_menu_scene g guienv dtime clouds) :
    (r.menuCloudsDrawn = (clouds && g.menu_clouds) ∧
     m.menuCloudsDrawn = (clouds && g.menu_clouds)) ∧
    ((clouds && g.menu_clouds) = true →
      r.cloudsStep = some (dtime * 3) ∧ r.clearColor = (255, 140, 186, 250) ∧
      m.cloudsStep = some (dtime * 3) ∧ m.clearColor = (255, 140, 186, 250)) ∧
    ((clouds && g.menu_clouds) = false →
      r.cloudsStep = none ∧ r.clearColor = (255, 0, 0, 0) ∧
      m.cloudsStep = none ∧ m.clearColor = (255, 0, 0, 0)) ∧
    (r.menuCloudsDrawn = m.menuCloudsDrawn ∧ r.cloudsStep = m.cloudsStep ∧
     r.clearColor = m.clearColor) := by
  subst hr hm
  refine ⟨⟨rfl, rfl⟩, ?_, ?_, ⟨rfl, rfl, rfl⟩⟩
  · intro h
    simp [_draw_load_screen, _draw_menu_scene, h]
  · intro h
    simp [_draw_load_screen, _draw_menu_scene, h]

/-- Witness for C10 at a concrete input: with `clouds = true` and the
setting on, both entry points step the clouds by `dtime * 3` and clear to
(255, 140, 186, 250). -/
theorem menu_clouds_gating_witness :
    (_draw_load_screen sampleEngine sampleSettings (fun _ => 100) 20 "loading"
        emptyEnv sampleTsrc 1 50 true).cloudsStep = some (1 * 3) ∧
    (_draw_load_screen sampleEngine sampleSettings (fun _ => 100) 20 "loading"
        emptyEnv sampleTsrc 1 50 true).clearColor = (255, 140, 186, 250) ∧
    (_draw_menu_scene sampleSettings emptyEnv 1 true).cloudsStep =
      some (1 * 3) ∧
    (_draw_menu_scene sampleSettings emptyEnv 1 true).clearColor =
      (255, 140, 186, 250) :=
  (menu_clouds_gating sampleEngine sampleSettings (fun _ => 100) 20 "loading"
    emptyEnv sampleTsrc 1 50 true _ _ rfl rfl).2.1 rfl

end Minetest
